import Mathlib

/-!
Shallow embedding of `src/airplay/cli.py` (xpgo/python-airplay), the CLI
controller for AirPlay receivers, together with proofs about its device
resolution and playback-monitoring logic.

The Python source is translated function by function:
* `get_airplay_device` (lines 15–39) becomes `parseHostPort` (explicit
  `host[:port]` input) and `getAirplayDeviceDiscover` (discovery outcome);
* the `photo` command tail (lines 92–97) becomes `photoCmds`;
* the `video` monitoring loop (lines 165–207) becomes `processEvent`,
  `drainEvents`, `monitorStep`, `runMonitorCmds` and `runTermination`;
* the progress-bar position computation (lines 195–198) becomes `barPos`.

Python floats are modelled as rationals; the claims proved here do not
depend on floating-point rounding.  Python `dict.get` on optional event
fields is modelled with `Option`.
-/

namespace AirPlayCli

/-- A receiver reference as produced by discovery: display name, host, port
(the fields read at cli.py line 37: `dd.name`, `dd.host`, `dd.port`). -/
structure ReceiverRef where
  name : String
  host : String
  port : Int
deriving DecidableEq

/-- The characters Python's `int(str)` strips before parsing. -/
def pyIsSpace (c : Char) : Bool :=
  c = ' ' ∨ c = '\t' ∨ c = '\n' ∨ c = '\r'

/-- Value of a nonempty all-digit character list, `none` otherwise. -/
def digitsVal (l : List Char) : Option Nat :=
  if l = [] then none
  else if l.all Char.isDigit then
    some (l.foldl (fun acc c => acc * 10 + (c.toNat - 48)) 0)
  else none

/-- Python `int(s)` on a character list: optional surrounding whitespace,
optional sign, then a nonempty digit run; `none` models `ValueError`. -/
def pyIntL (l : List Char) : Option Int :=
  let l1 := (((l.dropWhile pyIsSpace).reverse.dropWhile pyIsSpace)).reverse
  match l1 with
  | '-' :: rest => (digitsVal rest).map (fun n => -(n : Int))
  | '+' :: rest => (digitsVal rest).map (fun n => (n : Int))
  | _ => (digitsVal l1).map (fun n => (n : Int))

/-- Python `int(s)` on a string (raising `ValueError` modelled as `none`). -/
def pyInt (s : String) : Option Int :=
  pyIntL s.data

/-- Python `s.split(':', 1)`, kept only when it produces two parts: the text
before the first `':'` and everything after it.  `none` when there is no
`':'`, in which case the two-element unpacking at cli.py line 18 raises
`ValueError`. -/
def splitOnceColon : List Char → Option (List Char × List Char)
  | [] => none
  | c :: cs =>
    if c = ':' then some ([], cs)
    else
      match splitOnceColon cs with
      | some (a, b) => some (c :: a, b)
      | none => none

/-- cli.py lines 16–24 on a non-`None` `hostport`, over character lists:
split on the first `':'` and parse the port; on `ValueError` (no colon, or
unparsable port text) fall back to the whole input as host with port 7000. -/
def parseHostPortL (l : List Char) : List Char × Int :=
  match splitOnceColon l with
  | some (h, p) =>
    match pyIntL p with
    | some n => (h, n)
    | none => (l, 7000)
  | none => (l, 7000)

/-- cli.py lines 16–24: the `(host, port)` pair handed to `AirPlay(host, port)`
for an explicit `host[:port]` argument. -/
def parseHostPort (s : String) : String × Int :=
  ((String.mk (parseHostPortL s.data).1), (parseHostPortL s.data).2)

/-- Outcome of `get_airplay_device(None)`: the device returned, the `None`
return (no receiver found), or the `RuntimeError` carrying the candidate
list (cli.py lines 26–39). -/
inductive ResolveOutcome where
  | found (d : ReceiverRef)
  | noneFound
  | ambiguous (devices : List ReceiverRef)
deriving DecidableEq

/-- cli.py lines 26–39: `get_airplay_device(None)` dispatches purely on the
length of `AirPlay.find(fast=True)`: empty → return `None`; one → return
`devices[0]`; more → raise `RuntimeError` listing every device in order. -/
def getAirplayDeviceDiscover (devices : List ReceiverRef) : ResolveOutcome :=
  if h : devices.length = 0 then ResolveOutcome.noneFound
  else if devices.length = 1 then
    ResolveOutcome.found (devices.get ⟨0, Nat.pos_of_ne_zero h⟩)
  else ResolveOutcome.ambiguous devices

/-- An event from `ap.events(block=False)`: a dict whose `state`, `duration`
and `position` keys may each be absent (`ev.get(...)` then yields `None`). -/
structure PEvent where
  state : Option String
  duration : Option ℚ
  position : Option ℚ
deriving DecidableEq

/-- The mutable loop variables of the `video` command (cli.py lines 139,
154–155): `state` (a string), and `duration` / `position`, which start out
numeric but become `None` when a `playing` event lacks those keys. -/
structure PlayState where
  state : String
  duration : Option ℚ
  position : Option ℚ
deriving DecidableEq

/-- The answer of the synchronous `ap.scrub()` status poll (cli.py
lines 186–188). -/
structure ScrubInfo where
  duration : ℚ
  position : ℚ
deriving DecidableEq

/-- A receiver command issued by the CLI: `ap.play`, `ap.scrub`, `ap.photo`,
`ap.stop`, or a `time.sleep(1)` tick of the photo hold loop. -/
inductive Cmd where
  | play
  | scrub
  | photo
  | stop
  | sleep
deriving DecidableEq

/-- cli.py lines 168–178, one event of the drain: an event without a
`state` key is skipped (`continue`); a `playing` event additionally adopts
the event's `duration`/`position` via `ev.get` (absent keys give `None`);
every state-bearing event overwrites `state`. -/
def processEvent (ps : PlayState) (ev : PEvent) : PlayState :=
  match ev.state with
  | none => ps
  | some newstate =>
    if newstate = "playing" then
      { state := newstate, duration := ev.duration, position := ev.position }
    else
      { ps with state := newstate }

/-- cli.py line 168: the `for ev in ap.events(block=False)` drain processes
every currently buffered event in order. -/
def drainEvents (ps : PlayState) (evs : List PEvent) : PlayState :=
  evs.foldl processEvent ps

/-- One iteration of the `while True` monitor loop (cli.py lines 167–203),
after the initial play: drain the buffered events; if the resulting state is
`stopped`, terminate (the raised `KeyboardInterrupt`), issuing nothing; if
it is `playing`, issue a `scrub` poll whose answer overwrites
`duration`/`position`.  Returns the state the render step sees (`none` on
termination) and the receiver commands the iteration issued. -/
def monitorStep (ps : PlayState) (evs : List PEvent) (poll : ScrubInfo) :
    Option PlayState × List Cmd :=
  let ps1 := drainEvents ps evs
  if ps1.state = "stopped" then (none, [])
  else if ps1.state = "playing" then
    (some { ps1 with duration := some poll.duration, position := some poll.position },
      [Cmd.scrub])
  else (some ps1, [])

/-- The per-iteration inputs the receiver supplies: the buffered events and
the answer `ap.scrub()` would give if polled this iteration. -/
structure IterInput where
  events : List PEvent
  poll : ScrubInfo

/-- Why the monitor loop ended: a `stopped` state (cli.py lines 180–181) or
the external cancellation signal (`KeyboardInterrupt`, modelled as the
supplied iteration inputs running out). -/
inductive Termination where
  | stopped
  | cancelled
deriving DecidableEq

/-- Receiver commands issued by the monitor loop over a run: iterate
`monitorStep`, stopping at a `stopped` termination; cancellation truncates
the input list. -/
def runMonitorCmds : PlayState → List IterInput → List Cmd
  | _, [] => []
  | ps, i :: rest =>
    match monitorStep ps i.events i.poll with
    | (none, cmds) => cmds
    | (some ps2, cmds) => cmds ++ runMonitorCmds ps2 rest

/-- Why a run of the monitor loop ended: `stopped` when an iteration
terminates, `cancelled` when the cancellation signal arrives (the inputs
run out) first. -/
def runTermination : PlayState → List IterInput → Termination
  | _, [] => Termination.cancelled
  | ps, i :: rest =>
    match monitorStep ps i.events i.poll with
    | (none, _) => Termination.stopped
    | (some ps2, _) => runTermination ps2 rest

/-- cli.py lines 205–207, the `KeyboardInterrupt` handler of the `video`
command: it sets `ap = None` and raises `SystemExit`, issuing no receiver
command at all. -/
def cancelHandlerCmds : List Cmd := []

/-- The receiver commands of a whole `video` invocation cancelled after `k`
completed loop iterations: the initial `ap.play` (cli.py line 162), the
commands of the completed iterations, then whatever the cancellation
handler issues. -/
def videoCancelledCmds (ps : PlayState) (inputs : List IterInput) (k : Nat) :
    List Cmd :=
  Cmd.play :: (runMonitorCmds ps (inputs.take k) ++ cancelHandlerCmds)

/-- Python `int(x)` on a number: truncation toward zero. -/
def pyTrunc (q : ℚ) : Int :=
  if 0 ≤ q then ⌊q⌋ else ⌈q⌉

/-- cli.py lines 195–198: `bar.pos = int((position / duration) * 100)`, with
the `ZeroDivisionError` raised when `duration == 0` caught and replaced by
`bar.pos = 0`.  (Python raises `ZeroDivisionError` on numeric division by
zero, for floats as for ints, exactly when the divisor equals zero.) -/
def barPos (position duration : ℚ) : Int :=
  if duration = 0 then 0 else pyTrunc ((position / duration) * 100)

/-- cli.py line 93: the guard `if time >0:` compares the imported `time`
module, not the `duration` option; under Python 2 cross-type ordering any
module compares greater than any number, so the guard is constantly true. -/
def timeModuleGtZero : Bool := true

/-- cli.py lines 92–97, the tail of the `photo` command after a device is
resolved: send the photo, then — whenever the (buggy) guard holds — sleep
one second per progress-bar step over `range(0, duration)` and issue
`ap.stop()`. -/
def photoCmds (duration : Nat) : List Cmd :=
  Cmd.photo ::
    (if timeModuleGtZero then List.replicate duration Cmd.sleep ++ [Cmd.stop]
     else [])

/-! ## Helper lemmas -/

theorem splitOnceColon_of_not_mem : ∀ l : List Char, ':' ∉ l → splitOnceColon l = none
  | [], _ => rfl
  | c :: cs, hl => by
    have hc : ¬ (c = ':') := fun h => hl (by simp [h])
    have ih := splitOnceColon_of_not_mem cs (fun h => hl (by simp [h]))
    simp [splitOnceColon, hc, ih]

theorem splitOnceColon_append :
    ∀ (a t : List Char), ':' ∉ a → splitOnceColon (a ++ ':' :: t) = some (a, t)
  | [], t, _ => by simp [splitOnceColon]
  | c :: cs, t, hl => by
    have hc : ¬ (c = ':') := fun h => hl (by simp [h])
    have ih := splitOnceColon_append cs t (fun h => hl (by simp [h]))
    simp [splitOnceColon, hc, ih]

theorem data_colon_append (a t : String) :
    (a ++ ":" ++ t).data = a.data ++ ':' :: t.data := by
  simp [String.data_append]

theorem monitorStep_cmds_no_stop (ps : PlayState) (evs : List PEvent)
    (poll : ScrubInfo) : Cmd.stop ∉ (monitorStep ps evs poll).2 := by
  unfold monitorStep
  by_cases h1 : (drainEvents ps evs).state = "stopped" <;>
    by_cases h2 : (drainEvents ps evs).state = "playing" <;>
    simp [h1, h2]

theorem runMonitorCmds_no_stop : ∀ (ps : PlayState) (inputs : List IterInput),
    Cmd.stop ∉ runMonitorCmds ps inputs
  | _, [] => by simp [runMonitorCmds]
  | ps, i :: rest => by
    have h := monitorStep_cmds_no_stop ps i.events i.poll
    match hstep : monitorStep ps i.events i.poll with
    | (none, cmds) =>
      rw [hstep] at h
      simp only [runMonitorCmds, hstep]
      exact h
    | (some ps2, cmds) =>
      rw [hstep] at h
      have ih := runMonitorCmds_no_stop ps2 rest
      simp only [runMonitorCmds, hstep, List.mem_append]
      rintro (hc | hc)
      · exact h hc
      · exact ih hc

/-! ## Claim theorems -/

/-- C1: the single-photo operation was specified to return without a stop
command when `displaySeconds == 0`, but the guard at cli.py line 93 tests
the `time` module instead of `duration`, so the code sends the photo and
then issues `ap.stop()` even for a zero display duration. -/
theorem photo_zero_duration_sends_stop :
    photoCmds 0 = [Cmd.photo, Cmd.stop] := rfl

/-- C2: with no explicit address, `get_airplay_device` dispatches purely on
the length of the discovery result: zero candidates give the `None` return
(`noneFound`, a signaled outcome, not an exception), one candidate is
returned itself, and two or more raise the `RuntimeError` carrying every
candidate in arrival order (`ambiguous`). -/
theorem resolver_discovery_by_length (devices : List ReceiverRef) :
    (devices = [] → getAirplayDeviceDiscover devices = ResolveOutcome.noneFound) ∧
    (∀ d, devices = [d] → getAirplayDeviceDiscover devices = ResolveOutcome.found d) ∧
    (2 ≤ devices.length →
      getAirplayDeviceDiscover devices = ResolveOutcome.ambiguous devices) := by
  refine ⟨?_, ?_, ?_⟩
  · intro h; subst h; rfl
  · intro d h; subst h; rfl
  · intro h
    have h0 : ¬ devices.length = 0 := by omega
    have h1 : ¬ devices.length = 1 := by omega
    unfold getAirplayDeviceDiscover
    rw [dif_neg h0, if_neg h1]

/-- Witness for C2 at concrete discovery results of length 0, 1 and 2. -/
theorem resolver_discovery_by_length_witness :
    getAirplayDeviceDiscover [] = ResolveOutcome.noneFound ∧
    getAirplayDeviceDiscover [⟨"a", "h1", 7000⟩]
      = ResolveOutcome.found ⟨"a", "h1", 7000⟩ ∧
    getAirplayDeviceDiscover [⟨"a", "h1", 7000⟩, ⟨"b", "h2", 7001⟩]
      = ResolveOutcome.ambiguous [⟨"a", "h1", 7000⟩, ⟨"b", "h2", 7001⟩] :=
  ⟨(resolver_discovery_by_length []).1 rfl,
   (resolver_discovery_by_length [⟨"a", "h1", 7000⟩]).2.1 _ rfl,
   (resolver_discovery_by_length [⟨"a", "h1", 7000⟩, ⟨"b", "h2", 7001⟩]).2.2
     (by decide)⟩

/-- C4 counterexample: the input `"host:0"` parses as host `"host"` with
port `0`, which is not positive, refuting the claimed positive-port
invariant for explicitly supplied ports. -/
theorem resolver_port_positive_counterexample :
    parseHostPort "host:0" = ("host", 0) ∧
    ¬ (0 < (parseHostPort "host:0").2) := by decide

/-- C4 amended: the port of a resolver result is either the default 7000
(when the input has no colon or the port text fails integer parsing) or
exactly the integer the user wrote after the first colon, which may be zero
or negative. -/
theorem resolver_port_default_or_verbatim (s : String) :
    (parseHostPort s).2 = 7000 ∨
    (∃ a t, splitOnceColon s.data = some (a, t) ∧
      pyIntL t = some (parseHostPort s).2) := by
  unfold parseHostPort parseHostPortL
  cases hs : splitOnceColon s.data with
  | none => simp
  | some ht =>
    obtain ⟨a, t⟩ := ht
    cases hp : pyIntL t with
    | none => simp [hp]
    | some n => exact Or.inr ⟨a, t, rfl, by simp [hp]⟩

/-- C5: for an explicit address, if splitting on the first `':'` yields a
host (colon-free) part and a port part that parses as an integer, the
resolver returns that pair; otherwise — no colon at all, or malformed port
text — the entire input becomes the host with default port 7000, never an
error. -/
theorem resolver_explicit_address (s a t : String) (n : Int) :
    (':' ∉ s.data → parseHostPort s = (s, 7000)) ∧
    (':' ∉ a.data → pyInt t = some n →
      parseHostPort (a ++ ":" ++ t) = (a, n)) ∧
    (':' ∉ a.data → pyInt t = none →
      parseHostPort (a ++ ":" ++ t) = (a ++ ":" ++ t, 7000)) := by
  refine ⟨?_, ?_, ?_⟩
  · intro h
    simp [parseHostPort, parseHostPortL, splitOnceColon_of_not_mem s.data h]
  · intro h hp
    simp [parseHostPort, parseHostPortL, data_colon_append,
      splitOnceColon_append a.data t.data h, pyInt] at hp ⊢
    simp [hp]
  · intro h hp
    simp [parseHostPort, parseHostPortL, data_colon_append,
      splitOnceColon_append a.data t.data h, pyInt] at hp ⊢
    simp only [hp]
    exact ⟨congrArg String.mk (data_colon_append a t).symm, trivial⟩

/-- Witness for C5: a bare host, a well-formed `host:port`, and a malformed
port falling back to the default. -/
theorem resolver_explicit_address_witness :
    parseHostPort "myhost" = ("myhost", 7000) ∧
    parseHostPort ("myhost" ++ ":" ++ "8080") = ("myhost", 8080) ∧
    parseHostPort ("myhost" ++ ":" ++ "bad") = ("myhost" ++ ":" ++ "bad", 7000) :=
  ⟨(resolver_explicit_address "myhost" "x" "y" 0).1 (by decide),
   (resolver_explicit_address "x" "myhost" "8080" 8080).2.1 (by decide) (by decide),
   (resolver_explicit_address "x" "myhost" "bad" 0).2.2 (by decide) (by decide)⟩

/-- C3 counterexample: the first drained event sets the authoritative state
to `stopped`, yet a later event in the same drain overwrites it with
`playing`, so the iteration does not terminate — and the run over that
single queue ends as `cancelled`, not `stopped`. -/
theorem stopped_mid_drain_not_terminating :
    (processEvent ⟨"loading", some 0, some 0⟩ ⟨some "stopped", none, none⟩).state
      = "stopped" ∧
    monitorStep ⟨"loading", some 0, some 0⟩
        [⟨some "stopped", none, none⟩, ⟨some "playing", some 100, some 10⟩]
        ⟨100, 20⟩
      = (some ⟨"playing", some 100, some 20⟩, [Cmd.scrub]) ∧
    runTermination ⟨"loading", some 0, some 0⟩
        [⟨[⟨some "stopped", none, none⟩, ⟨some "playing", some 100, some 10⟩],
          ⟨100, 20⟩⟩]
      = Termination.cancelled :=
  ⟨rfl, rfl, rfl⟩

/-- C3 amended: if the authoritative state at the end of an iteration's
event drain is `stopped`, the monitor loop terminates within that same
iteration with the `stopped` termination reason, issuing no further
receiver command, regardless of the inputs queued for later iterations. -/
theorem stopped_state_terminates (ps : PlayState) (i : IterInput)
    (rest : List IterInput) (h : (drainEvents ps i.events).state = "stopped") :
    runTermination ps (i :: rest) = Termination.stopped ∧
    runMonitorCmds ps (i :: rest) = [] := by
  have hstep : monitorStep ps i.events i.poll = (none, []) := by
    simp [monitorStep, h]
  constructor
  · simp only [runTermination, hstep]
  · simp only [runMonitorCmds, hstep]

/-- Witness for C3's amended claim: a drain ending in `stopped` terminates
the run as `stopped` with no command, though further inputs are queued. -/
theorem stopped_state_terminates_witness :
    runTermination ⟨"loading", some 0, some 0⟩
        [⟨[⟨some "stopped", none, none⟩], ⟨100, 20⟩⟩,
         ⟨[⟨some "playing", some 100, some 10⟩], ⟨100, 20⟩⟩]
      = Termination.stopped ∧
    runMonitorCmds ⟨"loading", some 0, some 0⟩
        [⟨[⟨some "stopped", none, none⟩], ⟨100, 20⟩⟩,
         ⟨[⟨some "playing", some 100, some 10⟩], ⟨100, 20⟩⟩]
      = [] :=
  stopped_state_terminates ⟨"loading", some 0, some 0⟩
    ⟨[⟨some "stopped", none, none⟩], ⟨100, 20⟩⟩
    [⟨[⟨some "playing", some 100, some 10⟩], ⟨100, 20⟩⟩] rfl

/-- C6: whenever the authoritative state after the event drain is
`playing`, the iteration issues a synchronous `scrub` poll and its answer
overwrites `position` and `duration`, superseding any values adopted from
the drained events. -/
theorem poll_overrides_when_playing (ps : PlayState) (evs : List PEvent)
    (poll : ScrubInfo) (h : (drainEvents ps evs).state = "playing") :
    monitorStep ps evs poll
      = (some ⟨"playing", some poll.duration, some poll.position⟩,
         [Cmd.scrub]) := by
  cases hd : drainEvents ps evs with
  | mk st d p =>
    rw [hd] at h
    simp only at h
    subst h
    have hns : ¬ (("playing" : String) = "stopped") := by decide
    simp [monitorStep, hd, hns]

/-- Witness for C6, the spec's concrete scenario: events
`[{state:loading}, {state:playing,duration:100,position:10}]` then a poll
of `{position:20,duration:100}` end the iteration `playing` at
position 20. -/
theorem poll_overrides_when_playing_witness :
    monitorStep ⟨"loading", some 0, some 0⟩
        [⟨some "loading", none, none⟩, ⟨some "playing", some 100, some 10⟩]
        ⟨100, 20⟩
      = (some ⟨"playing", some 100, some 20⟩, [Cmd.scrub]) :=
  poll_overrides_when_playing ⟨"loading", some 0, some 0⟩
    [⟨some "loading", none, none⟩, ⟨some "playing", some 100, some 10⟩]
    ⟨100, 20⟩ rfl

/-- C7: an event carrying no `state` key is skipped by the drain and leaves
the whole playback state — state, position and duration — unchanged. -/
theorem event_without_state_ignored (ps : PlayState) (ev : PEvent)
    (h : ev.state = none) : processEvent ps ev = ps := by
  unfold processEvent
  rw [h]

/-- Witness for C7 at a concrete state and a stateless event. -/
theorem event_without_state_ignored_witness :
    processEvent ⟨"loading", some 0, some 0⟩ ⟨none, some 5, some 3⟩
      = ⟨"loading", some 0, some 0⟩ :=
  event_without_state_ignored ⟨"loading", some 0, some 0⟩ ⟨none, some 5, some 3⟩ rfl

/-- C8: when `duration` is zero the progress position is 0 for every
`position`; the `ZeroDivisionError` path of cli.py lines 195–198 is the
guarded branch and never surfaces. -/
theorem zero_duration_progress (position : ℚ) : barPos position 0 = 0 := by
  simp [barPos]

/-- C9: cancelling a `video` run after `k` completed iterations issues
exactly the initial `play` plus the commands of those iterations — the
`KeyboardInterrupt` handler adds nothing — and in particular no `stop`
command is ever sent on cancellation. -/
theorem cancellation_no_stop (ps : PlayState) (inputs : List IterInput)
    (k : Nat) :
    videoCancelledCmds ps inputs k
      = Cmd.play :: runMonitorCmds ps (inputs.take k) ∧
    Cmd.stop ∉ videoCancelledCmds ps inputs k := by
  constructor
  · simp [videoCancelledCmds, cancelHandlerCmds]
  · simp only [videoCancelledCmds, cancelHandlerCmds, List.append_nil,
      List.mem_cons]
    rintro (hc | hc)
    · exact Cmd.noConfusion hc
    · exact runMonitorCmds_no_stop ps (inputs.take k) hc

/-- C10: a drained `playing` event overwrites the tracked duration and
position with its own (possibly absent) fields; consequently a field-less
`playing` event followed by a `paused` event in the same drain reaches the
render step with `position` and `duration` both absent. -/
theorem playing_event_overwrites_time (ps : PlayState) (ev : PEvent)
    (poll : ScrubInfo) :
    (ev.state = some "playing" →
      processEvent ps ev = ⟨"playing", ev.duration, ev.position⟩) ∧
    monitorStep ps [⟨some "playing", none, none⟩, ⟨some "paused", none, none⟩]
        poll
      = (some ⟨"paused", none, none⟩, []) := by
  constructor
  · intro h
    simp [processEvent, h]
  · have h1 : ¬ (("paused" : String) = "playing") := by decide
    have h2 : ¬ (("paused" : String) = "stopped") := by decide
    simp [monitorStep, drainEvents, processEvent, h1, h2]

/-- Witness for C10 at a concrete prior state, event and poll answer. -/
theorem playing_event_overwrites_time_witness :
    processEvent ⟨"loading", some 50, some 5⟩ ⟨some "playing", none, none⟩
      = ⟨"playing", none, none⟩ ∧
    monitorStep ⟨"loading", some 50, some 5⟩
        [⟨some "playing", none, none⟩, ⟨some "paused", none, none⟩] ⟨100, 20⟩
      = (some ⟨"paused", none, none⟩, []) :=
  ⟨(playing_event_overwrites_time ⟨"loading", some 50, some 5⟩
      ⟨some "playing", none, none⟩ ⟨100, 20⟩).1 rfl,
   (playing_event_overwrites_time ⟨"loading", some 50, some 5⟩
      ⟨some "playing", none, none⟩ ⟨100, 20⟩).2⟩

end AirPlayCli
